import Mathlib

/-!
Shallow embedding of `src/menus.ts` of obsidian-map-view: the contextual
menu contributor functions.  A menu is a list of item specifications; each
contributor appends items.  Click handlers are represented as a closed
inductive of the closures the source installs, together with a semantics
function `clickRun` that replays the handler body as a trace of collaborator
calls (effects).  JavaScript numbers appear in the source only through
`Number.prototype.toString` (template literals and explicit `toString`
calls), so a coordinate is embedded as its sign / integer part / fraction
digits, with `JsNumber.render` modelling the locale-independent decimal
rendering ECMAScript prescribes for finite numbers in the plain-decimal
range.
-/

namespace MapViewMenus

/-- Character for a single decimal digit `d < 10` (ASCII `'0' + d`). -/
def digitChar (d : Nat) : Char := Char.ofNat (48 + d)

/-- Fuel-driven most-significant-first decimal digits of a natural number.
With fuel `n + 1` the recursion always completes. -/
def natDigitsAux : Nat → Nat → List Nat
  | 0, _ => []
  | fuel + 1, n => if n < 10 then [n] else natDigitsAux fuel (n / 10) ++ [n % 10]

/-- Decimal digits of `n`, most significant first. -/
def natDigits (n : Nat) : List Nat := natDigitsAux (n + 1) n

/-- Decimal digit characters of `n`. -/
def natChars (n : Nat) : List Char := (natDigits n).map digitChar

/-- Decimal string of a natural number, as JavaScript renders integers. -/
def natToString (n : Nat) : String := String.mk (natChars n)

/-- A finite JavaScript number as the source observes it: an optional minus
sign, an integer part and fraction digits (empty for integer values).
Models IEEE doubles whose `toString` output is plain decimal. -/
structure JsNumber where
  neg : Bool
  intPart : Nat
  frac : List (Fin 10)
  deriving DecidableEq, Repr

/-- Character list of the ECMAScript `Number.prototype.toString` rendering:
optional `-`, decimal integer digits, then `.` and the fraction digits when
the fraction is non-empty.  Locale-independent by construction. -/
def JsNumber.renderChars (x : JsNumber) : List Char :=
  (if x.neg then ['-'] else []) ++ natChars x.intPart ++
    (if x.frac = [] then [] else '.' :: x.frac.map (fun d => digitChar d.val))

/-- The decimal string of a JavaScript number (`Number.prototype.toString`). -/
def JsNumber.render (x : JsNumber) : String := String.mk x.renderChars

/-- `leaflet.LatLng`: an immutable latitude/longitude pair. -/
structure LatLng where
  lat : JsNumber
  lng : JsNumber
  deriving DecidableEq, Repr

/-- First index at which `pat` matches inside `s` (`String.prototype.indexOf`
in character units), `none` when there is no match. -/
def firstMatchPos (pat : List Char) : List Char → Option Nat
  | [] => if pat = [] then some 0 else none
  | c :: rest =>
    if pat.isPrefixOf (c :: rest) then some 0
    else (firstMatchPos pat rest).map (· + 1)

/-- JavaScript `String.prototype.replace` with a string pattern, on character
lists: only the first occurrence of `pat` is replaced by `repl`; when `pat`
does not occur the string is unchanged. -/
def replaceFirstList (pat repl : List Char) : List Char → List Char
  | [] => if pat = [] then repl else []
  | c :: rest =>
    if pat.isPrefixOf (c :: rest) then repl ++ (c :: rest).drop pat.length
    else c :: replaceFirstList pat repl rest

/-- JavaScript `String.prototype.replace` with a string pattern (the source
never uses `$`-replacement patterns: the replacements are decimal numbers). -/
def jsReplaceFirst (s pat repl : String) : String :=
  String.mk (replaceFirstList pat.data repl.data s.data)

/-- An `obsidian` `TFile` / `TAbstractFile` as far as the embedded code reads
it: only its `path` is consulted. -/
structure TFile where
  path : String
  deriving DecidableEq, Repr

/-- A user-configured "Open In" rule (`settings.openIn` entries): a display
name and a URL pattern with `\x7bx\x7d`/`\x7by\x7d` placeholder tokens.  A missing
(undefined) field is embedded as the empty string: both are falsy in the
source's `!setting.name || !setting.urlPattern` test. -/
structure OpenInRule where
  name : String
  urlPattern : String
  deriving DecidableEq, Repr

/-- The slice of `PluginSettings` the embedded contributors read. -/
structure PluginSettings where
  openIn : List OpenInRule
  newNoteNameFormat : String
  newNotePath : String
  newNoteTemplate : String
  deriving DecidableEq, Repr

/-- The mode tag passed to `utils.newNote`: the source's string literals
`'multiLocation'` (inline note) and `'singleLocation'` (front-matter note). -/
inductive NoteMode where
  | multiLocation
  | singleLocation
  deriving DecidableEq, Repr

/-- The cursor-placement routine handed to `mapContainer.goToFile`; the
source always passes `utils.handleNewNoteCursorMarker`. -/
inductive CursorRoutine where
  | handleNewNoteCursorMarker
  deriving DecidableEq, Repr

/-- The editor state the contributors consult synchronously:
`editor.getSelection()` (empty string when there is no selection). -/
structure EditorState where
  selection : String
  deriving DecidableEq, Repr

/-- The `UrlConvertor` capability as consumed during menu population:
`hasMatchInLine(editor)` reports whether the current line contains a
recognized URL. -/
structure UrlConvertor where
  hasMatchInLine : EditorState → Bool

/-- The mouse event a click handler receives (`evt.ctrlKey`, `evt.shiftKey`). -/
structure MouseEvt where
  ctrlKey : Bool
  shiftKey : Bool
  deriving DecidableEq, Repr

/-- Result of `urlConvertor.parseLocationFromUrl(text)`: either an immediate
value or a `Promise` of one; in both cases the value is `null` (`none`) or a
`ParsedLocation` whose `.location` field is the geolocation. -/
inductive ParseOutcome where
  | immediate (loc : Option LatLng)
  | promise (loc : Option LatLng)
  deriving DecidableEq, Repr

/-- The closure environment a click handler runs against: the collaborator
results it observes.  `clipboardText` is what `navigator.clipboard.readText()`
yields, `parseOutcome` the convertor's answer for that text,
`formatWithTemplates` the external template engine, and `newNoteResult` the
file handle `utils.newNote` resolves to. -/
structure ClickEnv where
  clipboardText : String
  parseOutcome : ParseOutcome
  formatWithTemplates : String → String
  newNoteResult : String

/-- The collaborator calls a click handler can perform, in the order the
handler body performs them. -/
inductive Effect where
  | openMapWithLocation (loc : LatLng) (newPane : Bool) (file : TFile)
      (editorLine : Nat) (alt : Bool)
  | openUri (uri : String)
  | openMapWithState (query : String) (newPane : Bool) (focus : Bool)
  | selectionToLink
  | convertUrlAtCursor
  | readClipboard
  | parseLocationFromUrl (text : String)
  | awaitPromise
  | insertLocationToEditor (loc : LatLng)
  | formatName (format : String)
  | createNote (mode : NoteMode) (path : String) (fileName : String)
      (locationString : String) (template : String)
  | goToFile (file : String) (newPane : Bool) (cursor : CursorRoutine)
  | writeClipboard (text : String)
  deriving DecidableEq, Repr

/-- The click-handler closures `menus.ts` installs, each carrying exactly the
data its source closure captures at menu-population time. -/
inductive ClickHandler where
  | showOnMap (geolocation : LatLng) (file : TFile) (editorLine : Nat)
  | openGeoUri (geolocation : LatLng)
  | openUrl (url : String)
  | selectionToLink
  | convertUrlAtCursor
  | pasteAsGeolocation
  | newNote (mode : NoteMode) (settings : PluginSettings) (locationString : String)
  | copyPlain (locationString : String)
  | copyFrontMatter (locationString : String)
  | focusLines (file : TFile) (fromLine toLine : Nat)
  deriving DecidableEq, Repr

/-- A menu item as the contributors build it: `setTitle`, `setIcon`,
`setSection` (field `menuSection`: `section` is reserved in Lean), `onClick`. -/
structure MenuItemSpec where
  title : String
  icon : String
  menuSection : String
  onClick : ClickHandler
  deriving DecidableEq, Repr

/-- The accumulating `Menu`: `menu.addItem` appends one item. -/
abbrev Menu := List MenuItemSpec

/-- A JavaScript runtime error; the only one the embedded code can raise is
the `TypeError` from reading a property of `null`/`undefined`. -/
inductive JsError where
  | typeError
  deriving DecidableEq, Repr

/-- `geo:\x7blat\x7d,\x7blng\x7d` — the URI the "Open with default app" handler opens. -/
def geoUri (g : LatLng) : String :=
  "geo:" ++ g.lat.render ++ "," ++ g.lng.render

/-- The `lat,lng` location string shared by the new-note and copy items. -/
def locationStringOf (g : LatLng) : String :=
  g.lat.render ++ "," ++ g.lng.render

/-- Clipboard text of the plain "Copy geolocation" item. -/
def copyPlainText (locationString : String) : String :=
  "[](geo:" ++ locationString ++ ")"

/-- Clipboard text of the "Copy geolocation as front matter" item. -/
def copyFrontMatterText (locationString : String) : String :=
  "---\nlocation: [" ++ locationString ++ "]\n---\n\n"

/-- The focus-lines map query: `path:"<file path>" AND lines:<from>-<to>`. -/
def focusLinesQuery (file : TFile) (fromLine toLine : Nat) : String :=
  "path:\"" ++ file.path ++ "\" AND lines:" ++ natToString fromLine ++ "-"
    ++ natToString toLine

/-- Replays a click-handler body as the sequence of collaborator calls it
performs against environment `env` and triggering event `evt`.  Every handler
body in the source is throw-free (collaborator failures are external and
propagate outside the embedded code), so the result is always `Except.ok`. -/
def clickRun (h : ClickHandler) (evt : MouseEvt) (env : ClickEnv) :
    Except JsError (List Effect) :=
  match h with
  | .showOnMap g file line =>
    Except.ok [Effect.openMapWithLocation g evt.ctrlKey file line evt.shiftKey]
  | .openGeoUri g => Except.ok [Effect.openUri (geoUri g)]
  | .openUrl url => Except.ok [Effect.openUri url]
  | .selectionToLink => Except.ok [Effect.selectionToLink]
  | .convertUrlAtCursor => Except.ok [Effect.convertUrlAtCursor]
  | .pasteAsGeolocation =>
    Except.ok (Effect.readClipboard ::
      Effect.parseLocationFromUrl env.clipboardText ::
      match env.parseOutcome with
      | .immediate none => []
      | .immediate (some loc) => [Effect.insertLocationToEditor loc]
      | .promise none => [Effect.awaitPromise]
      | .promise (some loc) =>
        [Effect.awaitPromise, Effect.insertLocationToEditor loc])
  | .newNote mode st locationString =>
    let newFileName := env.formatWithTemplates st.newNoteNameFormat
    Except.ok [Effect.formatName st.newNoteNameFormat,
      Effect.createNote mode st.newNotePath newFileName locationString
        st.newNoteTemplate,
      Effect.goToFile env.newNoteResult evt.ctrlKey
        CursorRoutine.handleNewNoteCursorMarker]
  | .copyPlain locationString =>
    Except.ok [Effect.writeClipboard (copyPlainText locationString)]
  | .copyFrontMatter locationString =>
    Except.ok [Effect.writeClipboard (copyFrontMatterText locationString)]
  | .focusLines file fromLine toLine =>
    Except.ok [Effect.openMapWithState (focusLinesQuery file fromLine toLine)
      evt.ctrlKey true]

/-- The "Show on map" item (menus.ts:35–49). -/
def showOnMapItem (g : LatLng) (file : TFile) (editorLine : Nat) :
    MenuItemSpec :=
  { title := "Show on map", icon := "globe", menuSection := "mapview",
    onClick := ClickHandler.showOnMap g file editorLine }

/-- `addShowOnMap` (menus.ts:27–51): gated on a present geolocation; the
`plugin` handle only reaches the click closure and is left implicit.  The
`if (geolocation)` guard makes an absent point a silent no-op, so the
function itself never throws. -/
def addShowOnMap (menu : Menu) (geolocation : Option LatLng) (file : TFile)
    (editorLine : Nat) : Except JsError Menu :=
  match geolocation with
  | some g => Except.ok (menu ++ [showOnMapItem g file editorLine])
  | none => Except.ok menu

/-- The "Open with default app" item (menus.ts:59–66). -/
def openWithDefaultItem (g : LatLng) : MenuItemSpec :=
  { title := "Open with default app", icon := "map-pin",
    menuSection := "mapview", onClick := ClickHandler.openGeoUri g }

/-- The `\x7bx\x7d` placeholder token. -/
def xToken : String := "{x}"

/-- The `\x7by\x7d` placeholder token. -/
def yToken : String := "{y}"

/-- The URL interpolated for one open-in rule (menus.ts:85–87):
`setting.urlPattern.replace('\x7bx\x7d', lat.toString()).replace('\x7by\x7d',
lng.toString())`. -/
def interpolateUrl (pattern : String) (location : LatLng) : String :=
  jsReplaceFirst (jsReplaceFirst pattern xToken location.lat.render) yToken
    location.lng.render

/-- The menu item built for a valid open-in rule (menus.ts:88–95). -/
def openInItem (location : LatLng) (rule : OpenInRule) : MenuItemSpec :=
  { title := "Open in " ++ rule.name, icon := "map-pin",
    menuSection := "mapview",
    onClick := ClickHandler.openUrl (interpolateUrl rule.urlPattern location) }

/-- The `for … of settings.openIn` loop of `populateOpenInItems`
(menus.ts:83–96): a rule with a falsy (empty/missing) `name` or `urlPattern`
is skipped with `continue`; every other rule appends one item. -/
def populateOpenInList (menu : Menu) (location : LatLng) :
    List OpenInRule → Menu
  | [] => menu
  | rule :: rest =>
    if rule.name = "" ∨ rule.urlPattern = "" then
      populateOpenInList menu location rest
    else populateOpenInList (menu ++ [openInItem location rule]) location rest

/-- `populateOpenInItems` (menus.ts:78–97). -/
def populateOpenInItems (menu : Menu) (location : LatLng)
    (settings : PluginSettings) : Menu :=
  populateOpenInList menu location settings.openIn

/-- `addOpenWith` (menus.ts:53–70): gated on a present geolocation; adds the
default-app item and then the user-configured open-in items. -/
def addOpenWith (menu : Menu) (geolocation : Option LatLng)
    (settings : PluginSettings) : Except JsError Menu :=
  match geolocation with
  | some g =>
    Except.ok (populateOpenInItems (menu ++ [openWithDefaultItem g]) g settings)
  | none => Except.ok menu

/-- The "Convert to geolocation (geosearch)" item (menus.ts:159–164). -/
def geosearchItem : MenuItemSpec :=
  { title := "Convert to geolocation (geosearch)", icon := "search",
    menuSection := "mapview", onClick := ClickHandler.selectionToLink }

/-- The "Convert to geolocation" item (menus.ts:169–176). -/
def convertItem : MenuItemSpec :=
  { title := "Convert to geolocation", icon := "search",
    menuSection := "mapview", onClick := ClickHandler.convertUrlAtCursor }

/-- The "Paste as geolocation" item (menus.ts:178–194). -/
def pasteItem : MenuItemSpec :=
  { title := "Paste as geolocation", icon := "clipboard-x",
    menuSection := "mapview", onClick := ClickHandler.pasteAsGeolocation }

/-- `addUrlConversionItems` (menus.ts:151–195): the geosearch item is gated
on a truthy `editor.getSelection()`, the conversion item on
`urlConvertor.hasMatchInLine(editor)`, and the paste item is unconditional.
The `suggestor` collaborator only reaches the click closure. -/
def addUrlConversionItems (menu : Menu) (editor : EditorState)
    (urlConvertor : UrlConvertor) : Menu :=
  let m1 := if editor.selection ≠ "" then menu ++ [geosearchItem] else menu
  let m2 := if urlConvertor.hasMatchInLine editor then m1 ++ [convertItem]
    else m1
  m2 ++ [pasteItem]

/-- The "New note here (inline)" item (menus.ts:205–227). -/
def newNoteInlineItem (settings : PluginSettings) (locationString : String) :
    MenuItemSpec :=
  { title := "New note here (inline)", icon := "edit", menuSection := "new",
    onClick := ClickHandler.newNote NoteMode.multiLocation settings
      locationString }

/-- The "New note here (front matter)" item (menus.ts:228–250). -/
def newNoteFrontMatterItem (settings : PluginSettings)
    (locationString : String) : MenuItemSpec :=
  { title := "New note here (front matter)", icon := "edit",
    menuSection := "new",
    onClick := ClickHandler.newNote NoteMode.singleLocation settings
      locationString }

/-- `addNewNoteItems` (menus.ts:197–251): its first statement reads
`geolocation.lat` and `geolocation.lng` with no guard, so a `null`/`undefined`
geolocation raises a `TypeError` during menu population; with a present point
it appends the two new-note items. -/
def addNewNoteItems (menu : Menu) (geolocation : Option LatLng)
    (settings : PluginSettings) : Except JsError Menu :=
  match geolocation with
  | none => Except.error JsError.typeError
  | some g =>
    let locationString := locationStringOf g
    Except.ok (menu ++ [newNoteInlineItem settings locationString,
      newNoteFrontMatterItem settings locationString])

/-- The plain "Copy geolocation" item (menus.ts:258–265). -/
def copyPlainItem (locationString : String) : MenuItemSpec :=
  { title := "Copy geolocation", icon := "copy", menuSection := "copy",
    onClick := ClickHandler.copyPlain locationString }

/-- The "Copy geolocation as front matter" item (menus.ts:266–275). -/
def copyFrontMatterItem (locationString : String) : MenuItemSpec :=
  { title := "Copy geolocation as front matter", icon := "copy",
    menuSection := "copy",
    onClick := ClickHandler.copyFrontMatter locationString }

/-- `addCopyGeolocationItems` (menus.ts:253–276): like `addNewNoteItems` it
reads `geolocation.lat`/`geolocation.lng` eagerly with no guard, so an absent
geolocation raises a `TypeError` at contribution time; otherwise it appends
the two copy items. -/
def addCopyGeolocationItems (menu : Menu) (geolocation : Option LatLng) :
    Except JsError Menu :=
  match geolocation with
  | none => Except.error JsError.typeError
  | some g =>
    let locationString := locationStringOf g
    Except.ok (menu ++ [copyPlainItem locationString,
      copyFrontMatterItem locationString])

/-- The focus-lines item title (menus.ts:288–292). -/
def focusLinesTitle (numLocations : Nat) : String :=
  "Focus " ++ natToString numLocations ++ " "
    ++ (if numLocations > 1 then "geolocations" else "geolocation")
    ++ " in Map View"

/-- The focus-lines item (menus.ts:287–305). -/
def focusLinesItem (file : TFile) (fromLine toLine numLocations : Nat) :
    MenuItemSpec :=
  { title := focusLinesTitle numLocations, icon := "globe",
    menuSection := "mapview",
    onClick := ClickHandler.focusLines file fromLine toLine }

/-- `addFocusLinesInMapView` (menus.ts:278–306): always appends exactly one
item; the `plugin` and `settings` handles only reach the click closure. -/
def addFocusLinesInMapView (menu : Menu) (file : TFile)
    (fromLine toLine numLocations : Nat) : Menu :=
  menu ++ [focusLinesItem file fromLine toLine numLocations]

/-- The keep-condition of the open-in loop, as a Boolean predicate: the rule
survives the source's `!setting.name || !setting.urlPattern` skip test. -/
def validRule (r : OpenInRule) : Bool :=
  !(r.name == "" || r.urlPattern == "")

/-- The items the open-in loop generates for a rule sequence: one item per
valid rule, in sequence order. -/
def openInItems (location : LatLng) (rules : List OpenInRule) : Menu :=
  (rules.filter validRule).map (openInItem location)

/-- Whether `parseLocationFromUrl` returned a `Promise`. -/
def ParseOutcome.isPromiseCase : ParseOutcome → Bool
  | .promise _ => true
  | .immediate _ => false

/-- The location the parse eventually yields (`none` for a `null` result). -/
def ParseOutcome.parsedLocation : ParseOutcome → Option LatLng
  | .promise l => l
  | .immediate l => l

/-- A character of a locale-independent plain decimal rendering: a digit, a
minus sign, or a full-stop decimal point. -/
def isPlainDecimalChar (c : Char) : Bool :=
  c.isDigit || c == '-' || c == '.'

theorem natDigitsAux_lt (fuel : Nat) :
    ∀ n d, d ∈ natDigitsAux fuel n → d < 10 := by
  induction fuel with
  | zero => intro n d h; simp [natDigitsAux] at h
  | succ fuel ih =>
    intro n d h
    rw [natDigitsAux] at h
    by_cases hn : n < 10
    · simp [hn] at h; omega
    · simp [hn] at h
      rcases h with h | h
      · exact ih _ _ h
      · subst h; exact Nat.mod_lt _ (by omega)

theorem digitChar_isDigit (d : Nat) (h : d < 10) : (digitChar d).isDigit = true := by
  interval_cases d <;> decide

theorem natChars_isDigit (n : Nat) : ∀ c ∈ natChars n, c.isDigit = true := by
  intro c hc
  simp only [natChars, natDigits, List.mem_map] at hc
  obtain ⟨d, hd, rfl⟩ := hc
  exact digitChar_isDigit d (natDigitsAux_lt _ _ _ hd)

theorem renderChars_plain (x : JsNumber) :
    ∀ c ∈ x.renderChars, isPlainDecimalChar c = true := by
  intro c hc
  rw [JsNumber.renderChars] at hc
  rcases List.mem_append.mp hc with h1 | h2
  · rcases List.mem_append.mp h1 with ha | hb
    · cases hneg : x.neg <;> simp [hneg] at ha
      subst ha; decide
    · simp [isPlainDecimalChar, natChars_isDigit _ _ hb]
  · by_cases hf : x.frac = []
    · simp [hf] at h2
    · simp [hf] at h2
      rcases h2 with h2 | h2
      · subst h2; decide
      · obtain ⟨d, _, rfl⟩ := h2
        simp [isPlainDecimalChar, digitChar_isDigit d.val d.isLt]

theorem renderChars_no_comma (x : JsNumber) : ',' ∉ x.renderChars := by
  intro h
  have := renderChars_plain x _ h
  simp [isPlainDecimalChar] at this

theorem natChars_count_dot (n : Nat) : (natChars n).count '.' = 0 := by
  refine List.count_eq_zero.mpr ?_
  intro h
  have := natChars_isDigit n _ h
  simp at this

theorem renderChars_dot_le_one (x : JsNumber) : x.renderChars.count '.' ≤ 1 := by
  rw [JsNumber.renderChars, List.count_append, List.count_append]
  have h1 : (if x.neg then ['-'] else []).count '.' = 0 := by
    cases hneg : x.neg <;> simp
  have h3 : (if x.frac = [] then []
      else '.' :: x.frac.map (fun d => digitChar d.val)).count '.' ≤ 1 := by
    by_cases hf : x.frac = []
    · simp [hf]
    · rw [if_neg hf, List.count_cons_self]
      have : (x.frac.map (fun d => digitChar d.val)).count '.' = 0 := by
        refine List.count_eq_zero.mpr ?_
        intro h
        obtain ⟨d, _, hd⟩ := List.mem_map.mp h
        have := digitChar_isDigit d.val d.isLt
        rw [hd] at this
        simp at this
      omega
  have h2 := natChars_count_dot x.intPart
  omega

theorem replaceFirstList_of_firstMatchPos (pat repl : List Char)
    (s : List Char) :
    ∀ i, firstMatchPos pat s = some i →
      replaceFirstList pat repl s =
        s.take i ++ repl ++ s.drop (i + pat.length) := by
  induction s with
  | nil =>
    intro i h
    by_cases hp : pat = ([] : List Char)
    · subst hp
      simp [firstMatchPos] at h
      subst h
      simp [replaceFirstList]
    · simp [firstMatchPos, hp] at h
  | cons c rest ih =>
    intro i h
    by_cases hp : pat.isPrefixOf (c :: rest) = true
    · rw [firstMatchPos, if_pos hp] at h
      injection h with h
      subst h
      rw [replaceFirstList, if_pos hp]
      simp
    · rw [firstMatchPos, if_neg hp] at h
      obtain ⟨j, hj, rfl⟩ := Option.map_eq_some'.mp h
      rw [replaceFirstList, if_neg hp, ih j hj]
      have harith : j + 1 + pat.length = (j + pat.length) + 1 := by omega
      simp [harith, List.take_succ_cons, List.drop_succ_cons]

theorem replaceFirstList_of_no_match (pat repl : List Char) (s : List Char)
    (h : firstMatchPos pat s = none) : replaceFirstList pat repl s = s := by
  induction s with
  | nil =>
    by_cases hp : pat = ([] : List Char)
    · simp [firstMatchPos, hp] at h
    · simp [replaceFirstList, hp]
  | cons c rest ih =>
    by_cases hp : pat.isPrefixOf (c :: rest) = true
    · rw [firstMatchPos, if_pos hp] at h
      simp at h
    · rw [firstMatchPos, if_neg hp] at h
      rw [replaceFirstList, if_neg hp]
      simp only [Option.map_eq_none'] at h
      rw [ih h]

theorem populateOpenInList_eq (location : LatLng) (rules : List OpenInRule) :
    ∀ menu : Menu, populateOpenInList menu location rules =
      menu ++ openInItems location rules := by
  induction rules with
  | nil => intro menu; simp [populateOpenInList, openInItems]
  | cons r rest ih =>
    intro menu
    by_cases h : r.name = "" ∨ r.urlPattern = ""
    · have hv : validRule r = false := by
        simp [validRule]
        tauto
      rw [populateOpenInList, if_pos h, ih]
      simp [openInItems, List.filter_cons, hv]
    · have hv : validRule r = true := by
        simp [validRule]
        tauto
      rw [populateOpenInList, if_neg h, ih]
      simp [openInItems, List.filter_cons, hv]

/-! Concrete test points and environments used by the spec's examples. -/

/-- The point `(1.5, -2.25)` of the spec's substitution example. -/
def demoPoint : LatLng :=
  { lat := { neg := false, intPart := 1, frac := [5] },
    lng := { neg := true, intPart := 2, frac := [2, 5] } }

/-- The point `(10, 20)` of the spec's clipboard examples. -/
def p1020 : LatLng :=
  { lat := { neg := false, intPart := 10, frac := [] },
    lng := { neg := false, intPart := 20, frac := [] } }

/-- The spec's example URL pattern. -/
def demoPattern : String := "https://x.example/{x}/{y}"

/-- A pattern that erroneously repeats both tokens. -/
def demoDupPattern : String := "{x} {x} / {y} {y}"

/-- An open-in rule with the example pattern. -/
def demoRule : OpenInRule :=
  { name := "OSM", urlPattern := demoPattern }

/-- The file of the spec's focus-lines example. -/
def demoFile : TFile := { path := "Notes/A.md" }

/-- A concrete click environment whose parse result is a `Promise` resolving
to a location. -/
def demoEnv : ClickEnv :=
  { clipboardText := "https://maps.example/q=10,20",
    parseOutcome := ParseOutcome.promise (some p1020),
    formatWithTemplates := fun s => s,
    newNoteResult := "New note.md" }

/-- An editor with a non-empty selection. -/
def selEditor : EditorState := { selection := "abc" }

/-- A convertor that reports a URL match in the current line. -/
def matchingConv : UrlConvertor := { hasMatchInLine := fun _ => true }

/-- C1: for every open-in rule with non-empty name and urlPattern and every
geolocation point, the URL of the rule's menu item is the rule's `urlPattern`
with only the first occurrence of `\x7bx\x7d` replaced by the decimal string of
`lat` and only the first occurrence of `\x7by\x7d` by that of `lng`
(`replaceFirstList` rewrites exactly the first match and nothing else); for
the pattern `demoPattern` and the point `(1.5, -2.25)` the result is
`https://x.example` followed by `1.5` and `-2.25`, and with duplicated tokens the
first occurrence of each token is still substituted. -/
theorem claim1_openIn_url_substitution (menu : Menu) (location : LatLng)
    (rule : OpenInRule) (h1 : rule.name ≠ "") (h2 : rule.urlPattern ≠ "") :
    populateOpenInList menu location [rule] = menu ++ [openInItem location rule]
    ∧ (openInItem location rule).onClick = ClickHandler.openUrl
        (jsReplaceFirst (jsReplaceFirst rule.urlPattern xToken
          location.lat.render) yToken location.lng.render)
    ∧ (∀ (pat repl s : List Char) (i : Nat), firstMatchPos pat s = some i →
        replaceFirstList pat repl s =
          s.take i ++ repl ++ s.drop (i + pat.length))
    ∧ (∀ (pat repl s : List Char), firstMatchPos pat s = none →
        replaceFirstList pat repl s = s)
    ∧ interpolateUrl demoPattern demoPoint = "https://x.example/1.5/-2.25"
    ∧ interpolateUrl demoDupPattern demoPoint = "1.5 {x} / -2.25 {y}" := by
  have hcond : ¬(rule.name = "" ∨ rule.urlPattern = "") := by tauto
  refine ⟨?_, rfl, ?_, ?_, by decide, by decide⟩
  · rw [populateOpenInList, if_neg hcond, populateOpenInList]
  · exact fun pat repl s i h => replaceFirstList_of_firstMatchPos pat repl s i h
  · exact fun pat repl s h => replaceFirstList_of_no_match pat repl s h

theorem claim1_witness :
    populateOpenInList [] demoPoint [demoRule] =
      [] ++ [openInItem demoPoint demoRule] :=
  (claim1_openIn_url_substitution [] demoPoint demoRule (by decide)
    (by decide)).1

/-- C2: for every configured open-in rule sequence and every point,
`populateOpenInItems` appends exactly one item per rule that passes the
non-empty-name-and-pattern test, in configuration order, each titled
`Open in <name>`; a rule failing the test contributes nothing and the loop
continues with the remaining rules. -/
theorem claim2_openIn_items_order (menu : Menu) (location : LatLng)
    (settings : PluginSettings) :
    populateOpenInItems menu location settings =
      menu ++ (settings.openIn.filter validRule).map (openInItem location)
    ∧ (∀ rule, (openInItem location rule).title = "Open in " ++ rule.name)
    ∧ (∀ rule, validRule rule = true ↔
        (rule.name ≠ "" ∧ rule.urlPattern ≠ "")) := by
  refine ⟨?_, fun rule => rfl, fun rule => ?_⟩
  · rw [populateOpenInItems, populateOpenInList_eq]
    rfl
  · simp [validRule]

/-- C3: the "Paste as geolocation" item is always added, and its click
handler reads the clipboard, passes the text to the URL-convertor's parse
routine, awaits the result exactly when the parse returned a promise, then
inserts the recovered location into the editor — or, when the parse yields
nothing, completes with no insertion and no error (the run result is always
`Except.ok`). -/
theorem claim3_paste_as_geolocation (evt : MouseEvt) (env : ClickEnv) :
    pasteItem.onClick = ClickHandler.pasteAsGeolocation
    ∧ (∀ menu editor conv, pasteItem ∈ addUrlConversionItems menu editor conv)
    ∧ (∃ effs, clickRun ClickHandler.pasteAsGeolocation evt env = Except.ok effs
        ∧ effs.take 2 = [Effect.readClipboard,
            Effect.parseLocationFromUrl env.clipboardText]
        ∧ (Effect.awaitPromise ∈ effs ↔ env.parseOutcome.isPromiseCase = true)
        ∧ (∀ loc, env.parseOutcome.parsedLocation = some loc →
            effs.getLast? = some (Effect.insertLocationToEditor loc))
        ∧ (env.parseOutcome.parsedLocation = none →
            ∀ loc, Effect.insertLocationToEditor loc ∉ effs)) := by
  refine ⟨rfl, fun menu editor conv => by simp [addUrlConversionItems], ?_⟩
  rcases hp : env.parseOutcome with l | l <;> rcases l with _ | loc
  · refine ⟨[Effect.readClipboard,
      Effect.parseLocationFromUrl env.clipboardText], ?_, rfl, ?_, ?_, ?_⟩
    · simp [clickRun, hp]
    · simp [hp, ParseOutcome.isPromiseCase]
    · simp [hp, ParseOutcome.parsedLocation]
    · simp [hp, ParseOutcome.parsedLocation]
  · refine ⟨[Effect.readClipboard,
      Effect.parseLocationFromUrl env.clipboardText,
      Effect.insertLocationToEditor loc], ?_, rfl, ?_, ?_, ?_⟩
    · simp [clickRun, hp]
    · simp [hp, ParseOutcome.isPromiseCase]
    · simp [hp, ParseOutcome.parsedLocation, List.getLast?]
    · simp [hp, ParseOutcome.parsedLocation]
  · refine ⟨[Effect.readClipboard,
      Effect.parseLocationFromUrl env.clipboardText,
      Effect.awaitPromise], ?_, rfl, ?_, ?_, ?_⟩
    · simp [clickRun, hp]
    · simp [hp, ParseOutcome.isPromiseCase]
    · simp [hp, ParseOutcome.parsedLocation]
    · simp [hp, ParseOutcome.parsedLocation]
  · refine ⟨[Effect.readClipboard,
      Effect.parseLocationFromUrl env.clipboardText,
      Effect.awaitPromise, Effect.insertLocationToEditor loc], ?_, rfl,
      ?_, ?_, ?_⟩
    · simp [clickRun, hp]
    · simp [hp, ParseOutcome.isPromiseCase]
    · simp [hp, ParseOutcome.parsedLocation, List.getLast?]
    · simp [hp, ParseOutcome.parsedLocation]

theorem claim3_witness :
    ∃ effs, clickRun ClickHandler.pasteAsGeolocation
        { ctrlKey := false, shiftKey := false } demoEnv = Except.ok effs
      ∧ Effect.awaitPromise ∈ effs := by
  obtain ⟨-, -, effs, hrun, -, hpro, -, -⟩ :=
    claim3_paste_as_geolocation { ctrlKey := false, shiftKey := false } demoEnv
  exact ⟨effs, hrun, hpro.mpr (by decide)⟩

/-- C4: with an absent geolocation point, `addShowOnMap` and `addOpenWith`
add no menu items and raise no error: each returns the menu unchanged
(`Except.ok menu`), so the item count before and after the call is equal. -/
theorem claim4_absent_geolocation_noop (menu : Menu) (file : TFile)
    (editorLine : Nat) (settings : PluginSettings) :
    addShowOnMap menu none file editorLine = Except.ok menu
    ∧ addOpenWith menu none settings = Except.ok menu := ⟨rfl, rfl⟩

/-- C5: `addCopyGeolocationItems` adds exactly two items; the plain item's
click writes `[](geo:lat,lng)` to the clipboard and the front-matter item's
click writes the three-line `---` fenced block followed by a blank line,
byte-for-byte; for the point `(10, 20)` the two payloads are the spec's
literal example strings. -/
theorem claim5_copy_items (menu : Menu) (g : LatLng) (evt : MouseEvt)
    (env : ClickEnv) :
    addCopyGeolocationItems menu (some g) = Except.ok (menu ++
      [copyPlainItem (locationStringOf g),
        copyFrontMatterItem (locationStringOf g)])
    ∧ locationStringOf g = g.lat.render ++ "," ++ g.lng.render
    ∧ clickRun (copyPlainItem (locationStringOf g)).onClick evt env =
        Except.ok [Effect.writeClipboard (copyPlainText (locationStringOf g))]
    ∧ clickRun (copyFrontMatterItem (locationStringOf g)).onClick evt env =
        Except.ok [Effect.writeClipboard
          (copyFrontMatterText (locationStringOf g))]
    ∧ (∀ s : String, copyPlainText s = "[](geo:" ++ s ++ ")")
    ∧ (∀ s : String, copyFrontMatterText s =
        "---\nlocation: [" ++ s ++ "]\n---\n\n")
    ∧ copyPlainText (locationStringOf p1020) = "[](geo:10,20)"
    ∧ copyFrontMatterText (locationStringOf p1020) =
        "---\nlocation: [10,20]\n---\n\n" :=
  ⟨rfl, rfl, rfl, rfl, fun s => rfl, fun s => rfl, by decide, by decide⟩

/-- C6: `addFocusLinesInMapView` adds exactly one item whose title is
`Focus N geolocations in Map View` exactly when `N > 1` and the singular
`Focus 1 geolocation in Map View` when `N = 1`, and whose click navigates
with the query `path:"<file path>" AND lines:<fromLine>-<toLine>`; for
`Notes/A.md`, lines 3–9, the query is the spec's literal example. -/
theorem claim6_focus_lines (menu : Menu) (file : TFile)
    (fromLine toLine numLocations : Nat) (h : 1 ≤ numLocations)
    (evt : MouseEvt) (env : ClickEnv) :
    addFocusLinesInMapView menu file fromLine toLine numLocations =
      menu ++ [focusLinesItem file fromLine toLine numLocations]
    ∧ (1 < numLocations →
        (focusLinesItem file fromLine toLine numLocations).title =
          "Focus " ++ natToString numLocations ++ " geolocations in Map View")
    ∧ (numLocations = 1 →
        (focusLinesItem file fromLine toLine numLocations).title =
          "Focus 1 geolocation in Map View")
    ∧ clickRun (focusLinesItem file fromLine toLine numLocations).onClick
        evt env = Except.ok [Effect.openMapWithState
          (focusLinesQuery file fromLine toLine) evt.ctrlKey true]
    ∧ focusLinesQuery file fromLine toLine =
        "path:\"" ++ file.path ++ "\" AND lines:" ++ natToString fromLine
          ++ "-" ++ natToString toLine
    ∧ focusLinesQuery demoFile 3 9 = "path:\"Notes/A.md\" AND lines:3-9" := by
  refine ⟨rfl, fun hgt => ?_, fun heq => ?_, rfl, rfl, by decide⟩
  · show focusLinesTitle numLocations = _
    rw [focusLinesTitle, if_pos hgt]
    simp only [String.append_assoc]
    congr 1
  · subst heq
    show focusLinesTitle 1 = _
    decide

theorem claim6_witness :
    (focusLinesItem demoFile 3 9 1).title = "Focus 1 geolocation in Map View"
    ∧ (focusLinesItem demoFile 3 9 2).title =
        "Focus 2 geolocations in Map View"
    ∧ focusLinesQuery demoFile 3 9 = "path:\"Notes/A.md\" AND lines:3-9" := by
  obtain ⟨-, -, h1, -, -, hq⟩ := claim6_focus_lines [] demoFile 3 9 1
    (by decide) { ctrlKey := false, shiftKey := false } demoEnv
  obtain ⟨-, h2, -, -, -, -⟩ := claim6_focus_lines [] demoFile 3 9 2
    (by decide) { ctrlKey := false, shiftKey := false } demoEnv
  refine ⟨h1 rfl, ?_, hq⟩
  rw [h2 (by decide)]
  decide

/-- C7: `addUrlConversionItems` adds the geosearch conversion item exactly
when the editor selection is non-empty, the URL conversion item exactly when
the convertor reports a match in the current line, and the paste item always;
the two gates are independent, so with a selection and a line match both
conversion items are present. -/
theorem claim7_url_conversion_gating (menu : Menu) (editor : EditorState)
    (conv : UrlConvertor) :
    addUrlConversionItems menu editor conv =
      menu ++ (if editor.selection ≠ "" then [geosearchItem] else [])
        ++ (if conv.hasMatchInLine editor then [convertItem] else [])
        ++ [pasteItem]
    ∧ pasteItem ∈ addUrlConversionItems menu editor conv
    ∧ (editor.selection ≠ "" → conv.hasMatchInLine editor = true →
        geosearchItem ∈ addUrlConversionItems menu editor conv
        ∧ convertItem ∈ addUrlConversionItems menu editor conv) := by
  have heq : addUrlConversionItems menu editor conv =
      menu ++ (if editor.selection ≠ "" then [geosearchItem] else [])
        ++ (if conv.hasMatchInLine editor then [convertItem] else [])
        ++ [pasteItem] := by
    by_cases h1 : editor.selection ≠ "" <;>
      by_cases h2 : conv.hasMatchInLine editor = true <;>
      simp [addUrlConversionItems, h1, h2]
  refine ⟨heq, by simp [addUrlConversionItems], fun h1 h2 => ?_⟩
  rw [heq]
  constructor <;> simp [h1, h2]

theorem claim7_witness :
    geosearchItem ∈ addUrlConversionItems [] selEditor matchingConv
    ∧ convertItem ∈ addUrlConversionItems [] selEditor matchingConv := by
  obtain ⟨-, -, h3⟩ := claim7_url_conversion_gating [] selEditor matchingConv
  exact h3 (by decide) rfl

/-- C8: both new-note click handlers run their steps in source order: format
the file name from the configured template, create the note (awaited, with
the created handle returned), and only then navigate to the created file
with the cursor-placement routine. -/
theorem claim8_new_note_ordering (menu : Menu) (g : LatLng)
    (settings : PluginSettings) (evt : MouseEvt) (env : ClickEnv) :
    addNewNoteItems menu (some g) settings = Except.ok (menu ++
      [newNoteInlineItem settings (locationStringOf g),
        newNoteFrontMatterItem settings (locationStringOf g)])
    ∧ (newNoteInlineItem settings (locationStringOf g)).onClick =
        ClickHandler.newNote NoteMode.multiLocation settings
          (locationStringOf g)
    ∧ (newNoteFrontMatterItem settings (locationStringOf g)).onClick =
        ClickHandler.newNote NoteMode.singleLocation settings
          (locationStringOf g)
    ∧ (∀ mode ls, clickRun (ClickHandler.newNote mode settings ls) evt env =
        Except.ok [Effect.formatName settings.newNoteNameFormat,
          Effect.createNote mode settings.newNotePath
            (env.formatWithTemplates settings.newNoteNameFormat) ls
            settings.newNoteTemplate,
          Effect.goToFile env.newNoteResult evt.ctrlKey
            CursorRoutine.handleNewNoteCursorMarker]) :=
  ⟨rfl, rfl, rfl, fun _ _ => rfl⟩

/-- C9: the "Open with default app" click handler opens exactly the URI
`geo:` followed by the decimal rendering of `lat`, a comma, and the decimal
rendering of `lng`; both renderings are locale-independent: every character
is a digit, a minus sign or a full stop, at most one full stop occurs, and
no comma (thousands separator) occurs. -/
theorem claim9_geo_uri (menu : Menu) (g : LatLng) (settings : PluginSettings)
    (evt : MouseEvt) (env : ClickEnv) :
    addOpenWith menu (some g) settings = Except.ok (menu ++
      openWithDefaultItem g :: openInItems g settings.openIn)
    ∧ (openWithDefaultItem g).onClick = ClickHandler.openGeoUri g
    ∧ clickRun (ClickHandler.openGeoUri g) evt env =
        Except.ok [Effect.openUri (geoUri g)]
    ∧ geoUri g = "geo:" ++ g.lat.render ++ "," ++ g.lng.render
    ∧ (∀ c ∈ (g.lat.render).data, isPlainDecimalChar c = true)
    ∧ (∀ c ∈ (g.lng.render).data, isPlainDecimalChar c = true)
    ∧ (g.lat.render).data.count '.' ≤ 1
    ∧ (g.lng.render).data.count '.' ≤ 1
    ∧ ',' ∉ (g.lat.render).data
    ∧ ',' ∉ (g.lng.render).data := by
  refine ⟨?_, rfl, rfl, rfl, renderChars_plain g.lat, renderChars_plain g.lng,
    renderChars_dot_le_one g.lat, renderChars_dot_le_one g.lng,
    renderChars_no_comma g.lat, renderChars_no_comma g.lng⟩
  show Except.ok (populateOpenInItems (menu ++ [openWithDefaultItem g]) g
    settings) = _
  rw [populateOpenInItems, populateOpenInList_eq]
  simp

/-- C10: unlike the gated contributors, `addNewNoteItems` and
`addCopyGeolocationItems` read `geolocation.lat`/`geolocation.lng` during
the synchronous population phase with no null check: called with an absent
geolocation they raise a `TypeError` at contribution time, while with a
present geolocation they add their two items. -/
theorem claim10_eager_access (menu : Menu) (settings : PluginSettings) :
    addNewNoteItems menu none settings = Except.error JsError.typeError
    ∧ addCopyGeolocationItems menu none = Except.error JsError.typeError
    ∧ (∀ g, addNewNoteItems menu (some g) settings = Except.ok (menu ++
        [newNoteInlineItem settings (locationStringOf g),
          newNoteFrontMatterItem settings (locationStringOf g)]))
    ∧ (∀ g, addCopyGeolocationItems menu (some g) = Except.ok (menu ++
        [copyPlainItem (locationStringOf g),
          copyFrontMatterItem (locationStringOf g)])) :=
  ⟨rfl, rfl, fun _ => rfl, fun _ => rfl⟩

end MapViewMenus
